import Mathlib

/-!
Shallow embedding of ext/qt/qtitem.cc (QtGLVideoItem / QtGLVideoItemInterface)
from gst-plugins-good-qgc, together with theorems settling the frozen claims
about its specification.

Modelling conventions:
* GstBuffer, GstGLDisplay, GstGLContext and QOpenGLContext handles are opaque
  and modelled as natural-number tags; a nullable pointer is an Option.
* GstCaps is modelled by the data the file actually inspects: whether the caps
  are fixed, the result of gst_video_info_from_caps (an Option VideoInfo), and
  an extra field standing for all remaining caps content so that distinct caps
  with the same parse result are representable.  gst_caps_is_equal_fixed is
  structural equality of this record.
* Machine integers are Nat (guint / guint64) and Int (gint), with explicit
  mod-2^32 casts where the C code converts between them.
* The GStreamer library helpers called by the file (gst_util_fraction_multiply,
  gst_video_calculate_display_ratio, gst_util_uint64_scale_int) are external
  dependencies; they are embedded from their documented semantics: fraction
  multiplication with cross reduction and G_MAXINT overflow checks, and exact
  64x32/32 scaling with truncating division.
* The two mutexes and the cross-thread schedule are not modelled; each
  operation is a function from the shared state to the new state plus its
  return value, mirroring the body the thread executes under the locks.  The
  bounded render-wait loop of setBuffer is modelled as a terminating function
  of an abstract observation of the waiting_on_render flag, one observation
  per 1 ms sleep.
-/

/-- Opaque GstBuffer handle (a frame). -/
abbrev GstBuffer := Nat

/-- Opaque GstGLDisplay handle. -/
abbrev GLDisplay := Nat

/-- Opaque GstGLContext handle. -/
abbrev GLContext := Nat

/-- Opaque QOpenGLContext handle. -/
abbrev QtContext := Nat

/-- GstVideoRectangle (gint fields).  The qreal bounding rectangle of the item
is modelled as already truncated to gint, which is what the C code stores into
GstVideoRectangle dst before any computation. -/
structure Rect where
  x : Int
  y : Int
  w : Int
  h : Int
  deriving DecidableEq

/-- The fields of GstVideoInfo that qtitem.cc reads: width, height and the
pixel-aspect-ratio fraction. -/
structure VideoInfo where
  width : Nat
  height : Nat
  par_n : Nat
  par_d : Nat
  deriving DecidableEq

/-- Model of GstCaps as seen by this file: fixedness, what
gst_video_info_from_caps would return for them (none when unparseable), and a
tag standing for the remaining caps content.  Structural equality models
gst_caps_is_equal_fixed. -/
structure Caps where
  fixed : Bool
  info : Option VideoInfo
  extra : Nat
  deriving DecidableEq

/-- struct _QtGLVideoItemPrivate: the shared state reachable from both
threads.  force_aspect is the force_aspect_ratio property field of the source
(renamed).  The two mutexes of the struct are not part of the data. -/
structure Priv where
  force_aspect : Bool
  par_n : Int
  par_d : Int
  display_width : Nat
  display_height : Nat
  negotiated : Bool
  front_buffer : Option GstBuffer
  back_buffer : Option GstBuffer
  waiting_on_render : Bool
  caps : Option Caps
  v_info : VideoInfo
  initted : Bool
  display : Option GLDisplay
  qt_context : Option QtContext
  other_context : Option GLContext
  context : Option GLContext
  deriving DecidableEq

/-- QtGLVideoItem: the GL-ready flag (m_openGlContextInitialized in the
source, renamed) and the shared-pointer to the private state (none once the
destructor has cleared it). -/
structure Item where
  m_openGlContextInitted : Bool
  priv : Option Priv
  deriving DecidableEq

/-- QtGLVideoItemInterface: the producer-side proxy; qt_item is the
invalidatable back-reference to the item (none once invalidated). -/
structure Interface where
  qt_item : Option Item
  deriving DecidableEq

/-- QSGSimpleTextureNode together with its GstQSGTexture, restricted to the
fields updatePaintNode writes: the caps and buffer bound into the texture and
the node rectangle. -/
structure PaintNode where
  texCaps : Option Caps
  texBuffer : Option GstBuffer
  rect : Rect
  deriving DecidableEq

/-- G_MAXINT. -/
def gmaxint : Nat := 2147483647

/-- External GStreamer helper gst_util_fraction_multiply: multiplies the
fractions a_n/a_d and b_n/b_d with cross reduction by gcd, failing (none) on a
zero denominator input or when a product would exceed G_MAXINT; the result is
returned fully reduced. -/
def gst_util_fraction_multiply (a_n a_d b_n b_d : Nat) : Option (Nat × Nat) :=
  if a_d = 0 then none
  else if b_d = 0 then none
  else
    let g1 := Nat.gcd a_n b_d
    let an2 := a_n / g1
    let bd2 := b_d / g1
    let g2 := Nat.gcd a_d b_n
    let ad2 := a_d / g2
    let bn2 := b_n / g2
    if gmaxint < an2 * bn2 then none
    else if gmaxint < ad2 * bd2 then none
    else
      let n := an2 * bn2
      let d := ad2 * bd2
      let g := Nat.gcd n d
      some (n / g, d / g)

/-- External GStreamer helper gst_video_calculate_display_ratio (renamed to
avoid tooling constraints on identifiers): display ratio =
(width/height) * (par_n/par_d) * (display_par_d/display_par_n), reduced,
failing when a fraction product cannot be formed or the result is not a
positive fraction. -/
def displayRatioCalc (width height par_n par_d display_par_n display_par_d : Nat) :
    Option (Nat × Nat) :=
  match gst_util_fraction_multiply width height par_n par_d with
  | none => none
  | some (t_n, t_d) =>
    match gst_util_fraction_multiply t_n t_d display_par_d display_par_n with
    | none => none
    | some (n, d) => if 0 < n ∧ 0 < d then some (n, d) else none

/-- External GStreamer helper gst_util_uint64_scale_int: val * num / den with
exact intermediate precision and truncating division. -/
def gst_util_uint64_scale_int (val num den : Nat) : Nat :=
  val * num / den

/-- The (guint) cast applied to a guint64 value: mod 2^32. -/
def guintOfU64 (v : Nat) : Nat := v % 4294967296

/-- The implicit gint-to-guint conversion at a call passing a gint where a
guint parameter is expected: reinterpretation mod 2^32. -/
def guintOfGint (n : Int) : Nat := (n % 4294967296).toNat

/-- The display-PAR selection inside _calculate_par (qtitem.cc lines 452-459):
the stored override pair is used only when both of its components are nonzero,
otherwise 1/1 is used. -/
def displayPar (p : Priv) : Nat × Nat :=
  if p.par_n ≠ 0 ∧ p.par_d ≠ 0 then (guintOfGint p.par_n, guintOfGint p.par_d)
  else (1, 1)

/-- The display-PAR selection as claim C4 words it: the override pair (0,0)
means unset and yields 1/1, any other override value is used as given. -/
def displayPar_claim (p : Priv) : Nat × Nat :=
  if p.par_n = 0 ∧ p.par_d = 0 then (1, 1)
  else (guintOfGint p.par_n, guintOfGint p.par_d)

/-- static _reset (qtitem.cc lines 253-264): drop both buffers, drop caps,
clear negotiated, initted and waiting_on_render. -/
def _reset (p : Priv) : Priv :=
  { p with back_buffer := none, front_buffer := none, caps := none,
           negotiated := false, initted := false, waiting_on_render := false }

/-- static _calculate_par (qtitem.cc lines 435-491): normalise a zero source
par_n to 1, select the display PAR, compute the display ratio (failing if the
library call fails), then resolve display_width and display_height by the
three-branch divisibility policy.  The (guint) casts of the uint64 scaling
results are kept explicit. -/
def _calculate_par (p : Priv) (info : VideoInfo) : Priv × Bool :=
  match displayRatioCalc info.width info.height
      (if info.par_n = 0 then 1 else info.par_n) info.par_d
      (displayPar p).1 (displayPar p).2 with
  | none => (p, false)
  | some (num, den) =>
    if info.height % den = 0 then
      ({ p with
          display_width := guintOfU64 (gst_util_uint64_scale_int info.height num den),
          display_height := info.height }, true)
    else if info.width % num = 0 then
      ({ p with
          display_width := info.width,
          display_height := guintOfU64 (gst_util_uint64_scale_int info.width den num) }, true)
    else
      ({ p with
          display_width := guintOfU64 (gst_util_uint64_scale_int info.height num den),
          display_height := info.height }, true)

/-- The width-versus-height resolution policy exactly as claim C3 states it,
as a standalone function of the inputs and the reduced display ratio: keep
height when it divides the denominator evenly, else keep width when it divides
the numerator evenly, else reuse the height-preserving computation.  The
scaling is the same integer scaling (with its guint cast) the source uses. -/
def computeDisplaySize_spec (width height num den : Nat) : Nat × Nat :=
  if height % den = 0 then
    (guintOfU64 (gst_util_uint64_scale_int height num den), height)
  else if width % num = 0 then
    (width, guintOfU64 (gst_util_uint64_scale_int width den num))
  else
    (guintOfU64 (gst_util_uint64_scale_int height num den), height)

/-- The destination-rectangle computation of the paint path (qtitem.cc lines
229-246): when force_aspect is set, gst_video_sink_center_rect (an external
helper using gdouble arithmetic, abstracted here as the argument center) is
applied to the display-size source rectangle and the bounding box; otherwise
the result is the bounding box itself.  The source rectangle x and y are left
unread by the helper; 0 is used here. -/
def computeDestinationRect (display_w display_h : Nat) (bbox : Rect)
    (force_aspect : Bool) (center : Rect → Rect → Rect) : Rect :=
  if force_aspect then
    center { x := 0, y := 0, w := (display_w : Int), h := (display_h : Int) } bbox
  else bbox

/-- QtGLVideoItem::updatePaintNode (qtitem.cc lines 193-251).  glReady is the
m_openGlContextInitted flag of the item; bbox is the (truncated) bounding
rectangle; center abstracts gst_video_sink_center_rect; oldNode is the node
argument.  Returns the new private state and the returned node: the old node
unchanged when the GL context is not ready; none (dropping the node) with
waiting_on_render cleared when no caps are stored; otherwise the buffers are
swapped, the texture is bound to the new front buffer and the current caps,
and the node rectangle is set to the destination rectangle. -/
def updatePaintNode (glReady : Bool) (center : Rect → Rect → Rect) (p : Priv)
    (bbox : Rect) (oldNode : Option PaintNode) : Priv × Option PaintNode :=
  if glReady then
    if p.caps.isNone then ({ p with waiting_on_render := false }, none)
    else
      let p1 := { p with front_buffer := p.back_buffer, back_buffer := p.front_buffer }
      let node0 : PaintNode :=
        match oldNode with
        | none => { texCaps := none, texBuffer := none, rect := { x := 0, y := 0, w := 0, h := 0 } }
        | some n => n
      let node1 := { node0 with texCaps := p1.caps, texBuffer := p1.front_buffer }
      let dest := computeDestinationRect p1.display_width p1.display_height bbox
          p1.force_aspect center
      ({ p1 with waiting_on_render := false }, some { node1 with rect := dest })
  else (p, oldNode)

/-- The p->caps && gst_caps_is_equal_fixed(p->caps, caps) test of setCaps. -/
def capsEqualOpt : Option Caps → Caps → Bool
  | some c0, c => decide (c0 = c)
  | none, _ => false

/-- QtGLVideoItemInterface::setCaps (qtitem.cc lines 493-523).  In source
order: fail on non-fixed caps, fail on a dead link or destroyed private state,
short-circuit successfully on caps equal to the stored ones, fail on
unparseable caps; then (under the lock) reset the state, store the new caps,
run _calculate_par (failing, with the reset state and the new caps kept, when
it fails), and finally store v_info and set negotiated. -/
def setCaps (iface : Interface) (c : Caps) : Interface × Bool :=
  if c.fixed then
    match iface.qt_item with
    | none => (iface, false)
    | some item =>
      match item.priv with
      | none => (iface, false)
      | some p =>
        if capsEqualOpt p.caps c then (iface, true)
        else
          match c.info with
          | none => (iface, false)
          | some vinfo =>
            match _calculate_par { _reset p with caps := some c } vinfo with
            | (p2, false) =>
              ({ qt_item := some { item with priv := some p2 } }, false)
            | (p2, true) =>
              ({ qt_item := some { item with priv := some { p2 with v_info := vinfo, negotiated := true } } }, true)
  else (iface, false)

/-- QtGLVideoItemInterface::setBuffer, state phase (qtitem.cc lines 283-303):
silently drop the buffer when the link is dead, the private state is gone, or
no format has been negotiated; otherwise store the buffer into the back slot
and raise waiting_on_render.  The returned Bool records whether a repaint was
requested (the invokeMethod update call); the subsequent bounded wait is
modelled separately by pollLoop / setBufferWait. -/
def setBuffer (iface : Interface) (buffer : GstBuffer) : Interface × Bool :=
  match iface.qt_item with
  | none => (iface, false)
  | some item =>
    match item.priv with
    | none => (iface, false)
    | some p =>
      if p.negotiated then
        let p2 := { p with back_buffer := some buffer, waiting_on_render := true }
        ({ qt_item := some { item with priv := some p2 } }, true)
      else (iface, false)

/-- The render-wait loop of setBuffer (qtitem.cc lines 310-318).  flag t is
the value of waiting_on_render observed at millisecond t (the render thread
may clear it at any time); deadline is the 100 ms budget measured from entry;
each iteration sleeps 1 ms.  The loop exits when the flag is observed clear,
or breaks past the deadline with the flag still set; the result is the number
of milliseconds spent waiting. -/
def pollLoop (flag : Nat → Bool) (deadline t : Nat) : Nat :=
  if flag t then
    if deadline < t + 1 then t + 1
    else pollLoop flag deadline (t + 1)
  else t
termination_by deadline + 1 - t

/-- The wait phase of setBuffer: poll waiting_on_render from time 0 with the
100 ms deadline of the source. -/
def setBufferWait (flag : Nat → Bool) : Nat := pollLoop flag 100 0

/-- QtGLVideoItemInterface::invalidateRef (qtitem.cc lines 271-281): when the
link is live, reset the private state (if still present) and clear the link.
The first component is the proxy afterwards; the second is the detached item
(as the render side still sees it) after the reset. -/
def invalidateRef (iface : Interface) : Interface × Option Item :=
  match iface.qt_item with
  | none => ({ qt_item := none }, none)
  | some item =>
    match item.priv with
    | none => ({ qt_item := none }, some item)
    | some p => ({ qt_item := none }, some { item with priv := some (_reset p) })

/-- QtGLVideoItemInterface::getQtContext (qtitem.cc lines 525-532): a
reference to the wrapped context, or null when the link is dead, the state is
gone or the context is absent. -/
def getQtContext (iface : Interface) : Option GLContext :=
  match iface.qt_item with
  | none => none
  | some item =>
    match item.priv with
    | none => none
    | some p => p.other_context

/-- QtGLVideoItemInterface::getContext (qtitem.cc lines 534-541). -/
def getContext (iface : Interface) : Option GLContext :=
  match iface.qt_item with
  | none => none
  | some item =>
    match item.priv with
    | none => none
    | some p => p.context

/-- QtGLVideoItemInterface::getDisplay (qtitem.cc lines 543-550). -/
def getDisplay (iface : Interface) : Option GLDisplay :=
  match iface.qt_item with
  | none => none
  | some item =>
    match item.priv with
    | none => none
    | some p => p.display

/-- QtGLVideoItemInterface::setDAR (qtitem.cc lines 552-556), delegating to
QtGLVideoItem::setDAR when the link is live. -/
def setDAR (iface : Interface) (num den : Int) : Interface :=
  match iface.qt_item with
  | none => iface
  | some item =>
    match item.priv with
    | none => iface
    | some p =>
      { qt_item := some { item with priv := some { p with par_n := num, par_d := den } } }

/-- QtGLVideoItemInterface::getDAR (qtitem.cc lines 558-562): none models the
out parameters being left untouched when the link is dead. -/
def getDAR (iface : Interface) : Option (Int × Int) :=
  match iface.qt_item with
  | none => none
  | some item =>
    match item.priv with
    | none => none
    | some p => some (p.par_n, p.par_d)

/-- QtGLVideoItemInterface::setForceAspectRatio (qtitem.cc lines 564-568),
renamed. -/
def setForceAspect (iface : Interface) (f : Bool) : Interface :=
  match iface.qt_item with
  | none => iface
  | some item =>
    match item.priv with
    | none => iface
    | some p => { qt_item := some { item with priv := some { p with force_aspect := f } } }

/-- QtGLVideoItemInterface::getForceAspectRatio (qtitem.cc lines 570-575),
renamed: FALSE when the link is dead. -/
def getForceAspect (iface : Interface) : Bool :=
  match iface.qt_item with
  | none => false
  | some item =>
    match item.priv with
    | none => false
    | some p => p.force_aspect

/-- The private state right after QtGLVideoItem construction: force aspect on,
override PAR at its default 0/1, everything else cleared (the display handle
is irrelevant to the claims and left absent). -/
def privBase : Priv :=
  { force_aspect := true, par_n := 0, par_d := 1,
    display_width := 0, display_height := 0,
    negotiated := false, front_buffer := none, back_buffer := none,
    waiting_on_render := false, caps := none,
    v_info := { width := 0, height := 0, par_n := 0, par_d := 0 },
    initted := false, display := none, qt_context := none,
    other_context := none, context := none }

/-- A well-formed 1920x1080 square-pixel video info. -/
def goodInfo : VideoInfo := { width := 1920, height := 1080, par_n := 1, par_d := 1 }

/-- Fixed caps parsing to goodInfo. -/
def goodCaps : Caps := { fixed := true, info := some goodInfo, extra := 0 }

/-- A parseable geometry whose display-ratio computation overflows G_MAXINT
(width and source par_n both G_MAXINT), making _calculate_par fail. -/
def overflowInfo : VideoInfo :=
  { width := 2147483647, height := 1, par_n := 2147483647, par_d := 1 }

/-- Fixed caps parsing to overflowInfo. -/
def overflowCaps : Caps := { fixed := true, info := some overflowInfo, extra := 1 }

/-- A negotiated state holding frames in both slots, used to exercise the
failing renegotiation of claim C1. -/
def c1Priv : Priv :=
  { privBase with
    caps := some goodCaps, negotiated := true,
    back_buffer := some 7, front_buffer := some 6, waiting_on_render := true,
    display_width := 1920, display_height := 1080, v_info := goodInfo }

/-- Item wrapping c1Priv. -/
def c1Item : Item := { m_openGlContextInitted := true, priv := some c1Priv }

/-- Proxy linked to c1Item. -/
def c1Iface : Interface := { qt_item := some c1Item }

/-- The state c1Iface reaches after setCaps fails in _calculate_par on
overflowCaps: fully reset but with the new caps already stored. -/
def c1IfaceAfter : Interface :=
  { qt_item := some { c1Item with priv := some { _reset c1Priv with caps := some overflowCaps } } }

/-- An unnegotiated state (no caps) with a repaint still marked pending. -/
def c2Priv : Priv := { privBase with waiting_on_render := true }

/-- A pre-existing scene-graph node. -/
def c2Node : PaintNode :=
  { texCaps := some goodCaps, texBuffer := some 6,
    rect := { x := 0, y := 0, w := 800, h := 600 } }

/-- A concrete 800x600 bounding box at the origin. -/
def bb0 : Rect := { x := 0, y := 0, w := 800, h := 600 }

/-- A concrete stand-in for the centering helper in witnesses. -/
def centerId : Rect → Rect → Rect := fun _ d => d

/-- A state with a fully nonzero override PAR 3/2. -/
def c4Priv2 : Priv := { privBase with par_n := 3, par_d := 2 }

/-- A negotiated state with force_aspect off, for the paint-path part of C5. -/
def c5Priv : Priv :=
  { privBase with
    force_aspect := false, caps := some goodCaps, negotiated := true,
    back_buffer := some 9 }

/-- A negotiated state holding a frame, for the repeated-setCaps claim C6. -/
def c6Priv : Priv :=
  { privBase with
    caps := some goodCaps, negotiated := true, back_buffer := some 5,
    display_width := 1920, display_height := 1080, v_info := goodInfo }

/-- Item wrapping c6Priv. -/
def c6Item : Item := { m_openGlContextInitted := true, priv := some c6Priv }

/-- Proxy linked to c6Item. -/
def c6Iface : Interface := { qt_item := some c6Item }

/-- Item in the freshly constructed, unnegotiated state. -/
def c7Item : Item := { m_openGlContextInitted := false, priv := some privBase }

/-- Proxy linked to c7Item. -/
def c7Iface : Interface := { qt_item := some c7Item }

/-- On failure _calculate_par leaves the private state untouched. -/
theorem calculate_par_fail_eq (p : Priv) (info : VideoInfo) (p2 : Priv)
    (h : _calculate_par p info = (p2, false)) : p2 = p := by
  unfold _calculate_par at h
  split at h
  · exact (Prod.mk.injEq _ _ _ _ ▸ h).1.symm
  · split at h
    · exact absurd (Prod.mk.injEq _ _ _ _ ▸ h).2 (by simp)
    · split at h
      · exact absurd (Prod.mk.injEq _ _ _ _ ▸ h).2 (by simp)
      · exact absurd (Prod.mk.injEq _ _ _ _ ▸ h).2 (by simp)

/-- invalidateRef always leaves the proxy with a null link. -/
theorem invalidateRef_link_none (iface : Interface) :
    (invalidateRef iface).1 = { qt_item := none } := by
  unfold invalidateRef
  rcases iface with ⟨_ | item⟩
  · rfl
  · rcases item with ⟨g, _ | p⟩ <;> rfl

/-- The render-wait loop never runs past its deadline by more than the 1 ms
polling step. -/
theorem pollLoop_le (flag : Nat → Bool) (deadline t : Nat) (h : t ≤ deadline) :
    pollLoop flag deadline t ≤ deadline + 1 := by
  unfold pollLoop
  split
  · split
    · omega
    · exact pollLoop_le flag deadline (t + 1) (by omega)
  · omega
termination_by deadline + 1 - t

/-- When the flag is never cleared the loop breaks out exactly at the first
poll past the deadline. -/
theorem pollLoop_stuck (flag : Nat → Bool) (hf : ∀ t, flag t = true)
    (deadline t : Nat) (h : t ≤ deadline) :
    pollLoop flag deadline t = deadline + 1 := by
  unfold pollLoop
  rw [hf t]
  simp only [if_true]
  split
  · omega
  · exact pollLoop_stuck flag hf deadline (t + 1) (by omega)
termination_by deadline + 1 - t

/-- C10: when the source pixel-aspect-ratio numerator is 0, _calculate_par
silently substitutes 1 for it before computing the display ratio, so a zero
source PAR numerator behaves exactly like 1. -/
theorem calculate_par_zero_par_n (p : Priv) (info : VideoInfo) :
    _calculate_par p { info with par_n := 0 } = _calculate_par p { info with par_n := 1 } := by
  rfl

/-- C4 counterexample: at the default override PAR 0/1 (which is not (0,0)),
the claim as stated picks the override as given, but the code picks 1/1: the
two selections disagree on the concrete state privBase. -/
theorem displayPar_claim_counterexample :
    displayPar privBase ≠ displayPar_claim privBase := by
  decide

/-- C4 amended: the target display PAR is 1/1 whenever either component of the
override is 0 (in particular for the default 0/1), and the override is used as
given exactly when both components are nonzero. -/
theorem displayPar_policy (p : Priv) :
    (p.par_n = 0 ∨ p.par_d = 0 → displayPar p = (1, 1)) ∧
    (p.par_n ≠ 0 → p.par_d ≠ 0 → displayPar p = (guintOfGint p.par_n, guintOfGint p.par_d)) := by
  constructor
  · intro h
    unfold displayPar
    rcases h with h | h <;> simp [h]
  · intro h1 h2
    unfold displayPar
    simp [h1, h2]

/-- C4 witness: the zero-component rule applied at the default override 0/1,
and the pass-through rule applied at the override 3/2. -/
theorem displayPar_policy_witness :
    displayPar privBase = (1, 1) ∧ displayPar c4Priv2 = (3, 2) :=
  ⟨(displayPar_policy privBase).1 (Or.inl rfl),
   (displayPar_policy c4Priv2).2 (by decide) (by decide)⟩

/-- C3: whenever the display-ratio computation succeeds with the reduced
fraction num/den, _calculate_par resolves width versus height exactly by the
claimed three-branch policy: keep height and scale width when height divides
den evenly, else keep width and scale height when width divides num evenly,
else reuse the height-preserving computation as an approximation. -/
theorem calculate_par_three_branch (p : Priv) (info : VideoInfo) (num den : Nat)
    (h : displayRatioCalc info.width info.height
        (if info.par_n = 0 then 1 else info.par_n) info.par_d
        (displayPar p).1 (displayPar p).2 = some (num, den)) :
    _calculate_par p info =
      ({ p with
         display_width := (computeDisplaySize_spec info.width info.height num den).1,
         display_height := (computeDisplaySize_spec info.width info.height num den).2 }, true) := by
  unfold _calculate_par computeDisplaySize_spec
  rw [h]
  by_cases h1 : info.height % den = 0
  · simp [h1]
  · by_cases h2 : info.width % num = 0
    · simp [h1, h2]
    · simp [h1, h2]

/-- C3 witness: 1920x1080 with square pixels and the default override yields
the reduced ratio 16/9 and keeps height 1080 while scaling width to 1920. -/
theorem calculate_par_three_branch_witness :
    _calculate_par privBase goodInfo =
      ({ privBase with
         display_width := (computeDisplaySize_spec 1920 1080 16 9).1,
         display_height := (computeDisplaySize_spec 1920 1080 16 9).2 }, true) :=
  calculate_par_three_branch privBase goodInfo 16 9 (by decide)

/-- C2 counterexample: with the GL context ready, no caps stored and a
previous node present, updatePaintNode does not return the previous node
unchanged; it returns none, dropping it. -/
theorem updatePaintNode_keeps_node_counterexample :
    (updatePaintNode true centerId c2Priv bb0 (some c2Node)).2 ≠ some c2Node := by
  decide

/-- C2 amended: with the GL context ready but no caps stored, updatePaintNode
clears waiting_on_render and returns none (no node), discarding any previous
node rather than keeping it; it is the context-not-ready path that returns the
previous node unchanged with the state untouched. -/
theorem updatePaintNode_unnegotiated (center : Rect → Rect → Rect) (p : Priv)
    (bbox : Rect) (oldNode : Option PaintNode) (h : p.caps = none) :
    updatePaintNode true center p bbox oldNode = ({ p with waiting_on_render := false }, none) ∧
    updatePaintNode false center p bbox oldNode = (p, oldNode) := by
  constructor
  · simp [updatePaintNode, h]
  · rfl

/-- C2 witness: the amended statement evaluated on the concrete unnegotiated
state c2Priv with a previous node present. -/
theorem updatePaintNode_unnegotiated_witness :
    updatePaintNode true centerId c2Priv bb0 (some c2Node) =
      ({ c2Priv with waiting_on_render := false }, none) ∧
    updatePaintNode false centerId c2Priv bb0 (some c2Node) = (c2Priv, some c2Node) :=
  updatePaintNode_unnegotiated centerId c2Priv bb0 (some c2Node) rfl

/-- C5: with force_aspect false the destination rectangle is the bounding box
unchanged, for any input geometry; correspondingly the paint path then sets
the node rectangle to exactly the bounding rectangle whenever caps are
stored. -/
theorem computeDestinationRect_no_force (dw dh : Nat) (bbox : Rect)
    (center : Rect → Rect → Rect) :
    computeDestinationRect dw dh bbox false center = bbox ∧
    ∀ (p : Priv) (c : Caps) (oldNode : Option PaintNode),
      p.force_aspect = false → p.caps = some c →
      ∃ n, (updatePaintNode true center p bbox oldNode).2 = some n ∧ n.rect = bbox := by
  constructor
  · rfl
  · intro p c oldNode hf hc
    simp only [updatePaintNode, hc, computeDestinationRect, hf, Option.isNone_some,
      Bool.false_eq_true, if_false, if_true]
    exact ⟨_, rfl, rfl⟩

/-- C5 witness: the non-force-aspect branch evaluated on a concrete geometry
and on the concrete negotiated state c5Priv. -/
theorem computeDestinationRect_no_force_witness :
    computeDestinationRect 640 480 bb0 false centerId = bb0 ∧
    ∃ n, (updatePaintNode true centerId c5Priv bb0 none).2 = some n ∧ n.rect = bb0 :=
  ⟨(computeDestinationRect_no_force 640 480 bb0 centerId).1,
   (computeDestinationRect_no_force 640 480 bb0 centerId).2 c5Priv goodCaps none rfl rfl⟩

/-- C6: calling setCaps again with caps equal to the stored concrete caps
returns success and leaves the whole shared state (frame slots and
waiting_on_render included) exactly as it was. -/
theorem setCaps_same_caps (iface : Interface) (item : Item) (p : Priv) (c : Caps)
    (hitem : iface.qt_item = some item) (hpriv : item.priv = some p)
    (hfix : c.fixed = true) (hcaps : p.caps = some c) :
    setCaps iface c = (iface, true) := by
  simp [setCaps, hitem, hpriv, hfix, hcaps, capsEqualOpt]

/-- C6 witness: repeating the negotiation of goodCaps on a state holding a
frame in the back slot succeeds and changes nothing, so the frame is still
present. -/
theorem setCaps_same_caps_witness :
    setCaps c6Iface goodCaps = (c6Iface, true) :=
  setCaps_same_caps c6Iface c6Item c6Priv goodCaps rfl rfl rfl rfl

/-- C7: a buffer delivered before any successful negotiation is dropped: the
state (in particular both frame slots and waiting_on_render) is unchanged and
no repaint is requested. -/
theorem setBuffer_unnegotiated (iface : Interface) (item : Item) (p : Priv) (buf : GstBuffer)
    (hitem : iface.qt_item = some item) (hpriv : item.priv = some p)
    (hneg : p.negotiated = false) :
    setBuffer iface buf = (iface, false) := by
  simp [setBuffer, hitem, hpriv, hneg]

/-- C7 witness: delivering buffer 42 to the freshly constructed, unnegotiated
proxy drops it with the state unchanged and no repaint requested. -/
theorem setBuffer_unnegotiated_witness :
    setBuffer c7Iface 42 = (c7Iface, false) :=
  setBuffer_unnegotiated c7Iface c7Item privBase 42 rfl rfl rfl

/-- C8: after invalidateRef the proxy holds a null link, and every subsequent
proxy operation observes it and returns its failure or empty value leaving the
proxy state unchanged: setBuffer drops the frame with no repaint, setCaps
returns failure, the context, display and DAR getters return empty,
the DAR and force-aspect setters are no-ops, and getForceAspect returns
false. -/
theorem invalidateRef_all_ops (iface : Interface) (buf : GstBuffer) (c : Caps)
    (num den : Int) (f : Bool) :
    setBuffer (invalidateRef iface).1 buf = ((invalidateRef iface).1, false) ∧
    setCaps (invalidateRef iface).1 c = ((invalidateRef iface).1, false) ∧
    getQtContext (invalidateRef iface).1 = none ∧
    getContext (invalidateRef iface).1 = none ∧
    getDisplay (invalidateRef iface).1 = none ∧
    setDAR (invalidateRef iface).1 num den = (invalidateRef iface).1 ∧
    getDAR (invalidateRef iface).1 = none ∧
    setForceAspect (invalidateRef iface).1 f = (invalidateRef iface).1 ∧
    getForceAspect (invalidateRef iface).1 = false := by
  rw [invalidateRef_link_none]
  refine ⟨rfl, ?_, rfl, rfl, rfl, rfl, rfl, rfl, rfl⟩
  unfold setCaps
  split <;> rfl

/-- C9: the render-wait phase of setBuffer polls waiting_on_render once per
millisecond against a 100 ms deadline, so for every possible behaviour of the
renderer the producer waits at most 101 ms, and when the flag is never cleared
the loop gives up exactly at the first poll past the deadline and returns
anyway. -/
theorem setBuffer_wait_bounded (flag : Nat → Bool) :
    setBufferWait flag ≤ 101 ∧ ((∀ t, flag t = true) → setBufferWait flag = 101) :=
  ⟨pollLoop_le flag 100 0 (by omega),
   fun hf => pollLoop_stuck flag hf 100 0 (by omega)⟩

/-- C9 witness: against a renderer that never clears the flag the wait is
exactly 101 ms, within the bound. -/
theorem setBuffer_wait_bounded_witness :
    setBufferWait (fun _ => true) ≤ 101 ∧ setBufferWait (fun _ => true) = 101 :=
  ⟨(setBuffer_wait_bounded (fun _ => true)).1,
   (setBuffer_wait_bounded (fun _ => true)).2 (fun _ => rfl)⟩

/-- C1 counterexample: on a negotiated state holding frames, setCaps with
fixed, parseable caps whose display-ratio computation overflows returns
failure but does not leave the state as it was: the frame slots have been
cleared and the new caps stored. -/
theorem setCaps_partial_reset_counterexample :
    (setCaps c1Iface overflowCaps).2 = false ∧ (setCaps c1Iface overflowCaps).1 ≠ c1Iface := by
  decide

/-- C1 amended: when setCaps returns failure, either the failure was detected
before any mutation (invalid or non-fixed caps, dead link, destroyed state,
unparseable caps) and the state is exactly as before, or the display-ratio
computation failed, in which case the state has already been fully reset with
the new caps stored (frames dropped, negotiated false). -/
theorem setCaps_failure_modes (iface : Interface) (c : Caps) (iface2 : Interface)
    (h : setCaps iface c = (iface2, false)) :
    iface2 = iface ∨
    ∃ item p vinfo, iface.qt_item = some item ∧ item.priv = some p ∧ c.info = some vinfo ∧
      _calculate_par { _reset p with caps := some c } vinfo =
        ({ _reset p with caps := some c }, false) ∧
      iface2 = { qt_item := some { item with priv := some { _reset p with caps := some c } } } := by
  unfold setCaps at h
  split at h
  · split at h
    · left
      exact ((Prod.mk.injEq _ _ _ _).mp h).1.symm
    · rename_i item hitem
      split at h
      · left
        exact ((Prod.mk.injEq _ _ _ _).mp h).1.symm
      · rename_i p hpriv
        split at h
        · exact absurd ((Prod.mk.injEq _ _ _ _).mp h).2 (by simp)
        · split at h
          · left
            exact ((Prod.mk.injEq _ _ _ _).mp h).1.symm
          · rename_i vinfo hinfo
            split at h
            · rename_i p2 hcp
              have hp2 : p2 = { _reset p with caps := some c } :=
                calculate_par_fail_eq _ _ _ hcp
              right
              subst hp2
              exact ⟨item, p, vinfo, hitem, hpriv, hinfo, hcp,
                ((Prod.mk.injEq _ _ _ _).mp h).1.symm⟩
            · exact absurd ((Prod.mk.injEq _ _ _ _).mp h).2 (by simp)
  · left
    exact ((Prod.mk.injEq _ _ _ _).mp h).1.symm

/-- C1 witness: the amended statement evaluated on the concrete failing
renegotiation, landing in the reset-with-new-caps disjunct. -/
theorem setCaps_failure_modes_witness :
    setCaps c1Iface overflowCaps = (c1IfaceAfter, false) ∧
    (c1IfaceAfter = c1Iface ∨
      ∃ item p vinfo, c1Iface.qt_item = some item ∧ item.priv = some p ∧
        overflowCaps.info = some vinfo ∧
        _calculate_par { _reset p with caps := some overflowCaps } vinfo =
          ({ _reset p with caps := some overflowCaps }, false) ∧
        c1IfaceAfter = { qt_item := some { item with priv := some { _reset p with caps := some overflowCaps } } }) :=
  ⟨by decide, setCaps_failure_modes c1Iface overflowCaps c1IfaceAfter (by decide)⟩
